import Mathlib

set_option maxRecDepth 16000

/-!
Verification of the ai-workflow repository's routing and SQL-safety core.

SQL text is modelled as `List Char` (the shallow embedding of Python `str`).
Each Python regex used by the source is embedded as a dedicated scanner
function with the same matching semantics on the inputs the source feeds it
(leftmost match, greedy character classes whose follower is outside the
class, ordered alternation).  Floats are modelled as rationals.
-/

/-- Characters of a string literal, the embedding of a Python `str` value. -/
abbrev chars (s : String) : List Char := s.data

/-- Single-quote character (kept out of string literals). -/
def sqc : Char := Char.ofNat 39

/-- Double-quote character (kept out of string literals). -/
def dqc : Char := Char.ofNat 34

/-- Python `\s` for the ASCII range: the whitespace characters `str.strip`,
`str.split` and the regexes treat as space. -/
def isSpaceChar (c : Char) : Bool :=
  c = ' ' || c = '\t' || c = '\n' || c = '\x0d' || c = '\x0b' || c = '\x0c'

/-- Python `\w` for the ASCII range: letters, digits and underscore. -/
def isWordChar (c : Char) : Bool :=
  c.isAlpha || c.isDigit || c = '_'

/-- Python `str.upper` on ASCII text. -/
def pyUpper (s : List Char) : List Char := s.map Char.toUpper

/-- Python `str.lower` on ASCII text. -/
def pyLower (s : List Char) : List Char := s.map Char.toLower

/-- Python `str.strip()`: drop leading and trailing whitespace. -/
def pyStrip (s : List Char) : List Char :=
  ((s.dropWhile isSpaceChar).reverse.dropWhile isSpaceChar).reverse

/-- Python `str.rstrip(";")`: drop trailing semicolons. -/
def rstripSemi (s : List Char) : List Char :=
  (s.reverse.dropWhile (· = ';')).reverse

/-- Whether `pat` occurs as a contiguous subsequence of `s`
(Python `pat in s`). -/
def containsSeq (pat : List Char) : List Char → Bool
  | [] => pat.isPrefixOf ([] : List Char)
  | c :: rest => pat.isPrefixOf (c :: rest) || containsSeq pat rest

/-- Number of positions of `s` at which `pat` occurs. -/
def countOccur (pat : List Char) : List Char → Nat
  | [] => if pat.isEmpty then 1 else 0
  | c :: rest => (if pat.isPrefixOf (c :: rest) then 1 else 0) + countOccur pat rest

/-- Case-insensitive prefix test (ASCII), for `re.IGNORECASE` literals. -/
def iPrefixOf : List Char → List Char → Bool
  | [], _ => true
  | _ :: _, [] => false
  | a :: pa, b :: pb => (a.toLower = b.toLower) && iPrefixOf pa pb

/-- Regex `\b` holds before the current position given the previous character. -/
def boundaryOk : Option Char → Bool
  | none => true
  | some c => !isWordChar c

/-- Regex `\b` holds after a match given the remaining characters. -/
def boundaryAfter : List Char → Bool
  | [] => true
  | c :: _ => !isWordChar c

/-- Scan `s` left to right for the first position where the position matcher
`m` succeeds; `m` receives the previous character and the remaining text and
returns a payload on success.  This is `re.search` for the embedded
patterns. -/
def findFirstAux (m : Option Char → List Char → Option α) (prev : Option Char)
    (i : Nat) : List Char → Option (Nat × α)
  | [] =>
    match m prev [] with
    | some a => some (i, a)
    | none => none
  | c :: rest =>
    match m prev (c :: rest) with
    | some a => some (i, a)
    | none => findFirstAux m (some c) (i + 1) rest

/-- First match of the position matcher `m` in `s`, with its start index. -/
def findFirst (m : Option Char → List Char → Option α) (s : List Char) :
    Option (Nat × α) :=
  findFirstAux m none 0 s

/-- Position matcher for regex `\bkw\b` where `kw` starts and ends with word
characters; returns the matched length. -/
def matchWordAt (kw : List Char) (prev : Option Char) (s : List Char) :
    Option Nat :=
  if boundaryOk prev && kw.isPrefixOf s && boundaryAfter (s.drop kw.length) then
    some kw.length
  else none

/-- Regex search for `\bkw\b` (case-sensitive). -/
def wordSearch (kw : List Char) (s : List Char) : Bool :=
  (findFirst (matchWordAt kw) s).isSome

/-- Case-insensitive variant of `matchWordAt`. -/
def matchWordAtCI (kw : List Char) (prev : Option Char) (s : List Char) :
    Option Nat :=
  if boundaryOk prev && iPrefixOf kw s && boundaryAfter (s.drop kw.length) then
    some kw.length
  else none

/-- Regex search for `\bkw\b` with `re.IGNORECASE`. -/
def wordSearchCI (kw : List Char) (s : List Char) : Bool :=
  (findFirst (matchWordAtCI kw) s).isSome

/-- The DDL/DML keywords rejected by `detect_dangerous_sql_patterns`
(src/utils.py). -/
def ddlKeywords : List (List Char) :=
  [chars "DROP", chars "CREATE", chars "ALTER", chars "TRUNCATE",
   chars "DELETE", chars "INSERT", chars "UPDATE"]

/-- Error message for a detected DDL/DML keyword. -/
def msgDangerous (kw : List Char) : List Char :=
  chars "Dangerous operation detected: " ++ kw

/-- Error message for multiple SQL statements. -/
def msgMultiple : List Char := chars "Multiple SQL statements not allowed"

/-- Error message for INFORMATION_SCHEMA access. -/
def msgInfoSchema : List Char := chars "Access to INFORMATION_SCHEMA not allowed"

/-- Embedding of `detect_dangerous_sql_patterns` (src/utils.py, lines
186-210): DDL keywords as whole words of the uppercased SQL, the
INFORMATION_SCHEMA substring, and a raw count of `;` characters. -/
def detectDangerousSqlPatterns (sql : List Char) : List (List Char) :=
  let u := pyUpper sql
  (ddlKeywords.filter (fun kw => wordSearch kw u)).map msgDangerous
    ++ (if containsSeq (chars "INFORMATION_SCHEMA") u then [msgInfoSchema] else [])
    ++ (if sql.count ';' > 1 then [msgMultiple] else [])

/-- Regex `\s+`: require at least one whitespace character, consume the
maximal run (the follower in every use is a non-space character, so greedy
matching is deterministic). -/
def eatSpaces1 (s : List Char) : Option (List Char) :=
  match s with
  | c :: rest => if isSpaceChar c then some (rest.dropWhile isSpaceChar) else none
  | [] => none

/-- One alternative of a non-capturing stop group `(?:\s+K1|\s+K2|...)`:
whitespace then one of the keywords (case-insensitively). -/
def stopHere (stops : List (List Char)) (t : List Char) : Bool :=
  match eatSpaces1 t with
  | some r => stops.any (fun st => iPrefixOf st r)
  | none => false

/-- Characters of a lazy capture `(.+?)` after its forced first character:
extend until the first position where a stop alternative matches, or to the
end of the text (the `$` alternative). -/
def takeUntilStop (stops : List (List Char)) : List Char → List Char
  | [] => []
  | d :: r2 => if stopHere stops (d :: r2) then [] else d :: takeUntilStop stops r2

/-- Lazy capture `(.+?)(?:\s+K1|...|$)`: at least one character, then minimal
extension to a stop alternative or the end of the text. -/
def lazyCapture (stops : List (List Char)) : List Char → Option (List Char)
  | [] => none
  | c :: rest => some (c :: takeUntilStop stops rest)

/-- Position matcher for `\bGROUP\s+BY\s+(.+?)(?:\s+HAVING|\s+ORDER|\s+LIMIT|$)`
(sql_validator.py line 112); returns group 1. -/
def matchValGroupByAt (prev : Option Char) (s : List Char) : Option (List Char) :=
  if !boundaryOk prev then none
  else if iPrefixOf (chars "GROUP") s then
    match eatSpaces1 (s.drop 5) with
    | some r1 =>
      if iPrefixOf (chars "BY") r1 then
        match eatSpaces1 (r1.drop 2) with
        | some r2 => lazyCapture [chars "HAVING", chars "ORDER", chars "LIMIT"] r2
        | none => none
      else none
    | none => none
  else none

/-- Position matcher for `\bHAVING\s+(.+?)(?:\s+ORDER|\s+LIMIT|$)`
(sql_validator.py line 113); returns group 1. -/
def matchValHavingAt (prev : Option Char) (s : List Char) : Option (List Char) :=
  if !boundaryOk prev then none
  else if iPrefixOf (chars "HAVING") s then
    match eatSpaces1 (s.drop 6) with
    | some r1 => lazyCapture [chars "ORDER", chars "LIMIT"] r1
    | none => none
  else none

/-- Column alternation of the validator's HAVING column pattern
(sql_validator.py line 125). -/
def colAlternatives : List (List Char) :=
  [chars "risk_level", chars "age", chars "gender", chars "status",
   chars "is_active", chars "participation"]

/-- Match the alternation `(risk_level|age|gender|status|is_active|participation)\b`
at the start of `s`; alternatives are tried in order and each must be
followed by a word boundary. -/
def matchColAlt (s : List Char) : Option Nat :=
  colAlternatives.findSome? (fun alt =>
    if iPrefixOf alt s && boundaryAfter (s.drop alt.length) then some alt.length
    else none)

/-- Character class `[a-z_]` under `re.IGNORECASE`. -/
def isColPrefixChar (c : Char) : Bool := c.isAlpha || c = '_'

/-- Position matcher for `\b([a-z_]+\.)?(risk_level|...|participation)\b`:
try the greedy optional qualifier first, then the bare alternation; returns
the length of the whole match. -/
def matchColPatAt (prev : Option Char) (s : List Char) : Option Nat :=
  if !boundaryOk prev then none
  else
    let run := s.takeWhile isColPrefixChar
    let withQual : Option Nat :=
      if run.isEmpty then none
      else
        match s.drop run.length with
        | c :: rest2 =>
          if c = '.' then (matchColAlt rest2).map (fun l => run.length + 1 + l)
          else none
        | [] => none
    match withQual with
    | some l => some l
    | none => matchColAlt s

/-- `re.finditer` for the column pattern: non-overlapping matches left to
right, as (start, length) pairs; `fuel` bounds the scan (callers pass the
text length, which suffices since every step consumes at least one
character). -/
def finditerColAux (fuel : Nat) (prev : Option Char) (i : Nat)
    (s : List Char) : List (Nat × Nat) :=
  match fuel with
  | 0 => []
  | fuel + 1 =>
    match s with
    | [] => []
    | c :: rest =>
      match matchColPatAt prev (c :: rest) with
      | some l =>
        (i, l) :: finditerColAux fuel (some ((c :: rest).getD (l - 1) c)) (i + l)
          ((c :: rest).drop l)
      | none => finditerColAux fuel (some c) (i + 1) rest

/-- All column-pattern matches of `s`. -/
def finditerCol (s : List Char) : List (Nat × Nat) :=
  finditerColAux s.length none 0 s

/-- Aggregate names of the validator's look-behind check
(sql_validator.py line 130). -/
def aggNamesV : List (List Char) :=
  [chars "SUM", chars "COUNT", chars "AVG", chars "MAX", chars "MIN", chars "CAST"]

/-- Position matcher for `\b(N1|N2|...)\s*\([^)]*$`: an aggregate name at a
word boundary, optional whitespace, an opening parenthesis, and no closing
parenthesis up to the end of the text. -/
def matchAggOpenAt (names : List (List Char)) (prev : Option Char)
    (s : List Char) : Option Unit :=
  if !boundaryOk prev then none
  else
    match names.findSome? (fun nm => if iPrefixOf nm s then some nm.length else none) with
    | none => none
    | some len =>
      match (s.drop len).dropWhile isSpaceChar with
      | c :: tail => if c = '(' && tail.all (· ≠ ')') then some () else none
      | [] => none

/-- Regex search for the aggregate look-behind pattern. -/
def aggOpenSearch (names : List (List Char)) (s : List Char) : Bool :=
  (findFirst (matchAggOpenAt names) s).isSome

/-- Filter columns the validator treats as common WHERE-clause columns
(sql_validator.py line 142). -/
def commonFilterCols : List (List Char) :=
  [chars "risk_level", chars "age", chars "gender", chars "participation",
   chars "status", chars "is_active"]

/-- Keyword list the validator excludes from column names
(sql_validator.py line 140). -/
def havingStopWords : List (List Char) :=
  [chars "and", chars "or", chars "not", chars "in", chars "between",
   chars "like", chars "is", chars "null"]

/-- The HAVING-column error message (sql_validator.py lines 144-147). -/
def msgHavingCol (colName : List Char) : List Char :=
  chars "Column " ++ [sqc] ++ colName ++ [sqc]
    ++ chars " in HAVING clause should be in WHERE clause or GROUP BY. Non-aggregated columns (like risk_level, age, participation flags) must be filtered in WHERE, not HAVING."

/-- The validator's final HAVING loop (sql_validator.py lines 134-148),
kept faithful to the source: each recorded match string is indexed at
positions 0 and 1, so `col` and `col_name` are single characters, exactly
as `col_match[0]` and `col_match[1]` are in Python. -/
def havingLoopError (gbLower : List Char) : List (List Char) → Option (List Char)
  | [] => none
  | cm :: rest =>
    let col := cm.take 1
    let colName := (cm.drop 1).take 1
    if colName.isEmpty then havingLoopError gbLower rest
    else
      let fullCol := pyLower (col ++ colName)
      if !containsSeq fullCol gbLower && !havingStopWords.contains (pyLower colName) then
        if commonFilterCols.any (fun fc => containsSeq fc (pyLower colName)) then
          some (msgHavingCol colName)
        else havingLoopError gbLower rest
      else havingLoopError gbLower rest

/-- The GROUP BY / HAVING consistency block of `_validate_sql`
(sql_validator.py lines 110-148), applied to the uppercased, stripped SQL. -/
def havingBlockErrors (u : List Char) : List (List Char) :=
  if containsSeq (chars "GROUP BY") u && containsSeq (chars "HAVING") u then
    match findFirst matchValGroupByAt u, findFirst matchValHavingAt u with
    | some gb, some hv =>
      let gbCols := pyStrip gb.2
      let hvClause := pyStrip hv.2
      let nonAgg := (finditerCol hvClause).filterMap (fun p =>
        if aggOpenSearch aggNamesV (hvClause.take p.1) then none
        else some ((hvClause.drop p.1).take p.2))
      match havingLoopError (pyLower gbCols) nonAgg with
      | some e => [e]
      | none => []
    | _, _ => []
  else []

/-- Position matcher for `\bSELECT\s+\*\s+FROM` (sql_validator.py line 102,
applied without `re.IGNORECASE` to the uppercased SQL). -/
def matchSelectStarAt (prev : Option Char) (s : List Char) : Option Unit :=
  if !boundaryOk prev then none
  else if (chars "SELECT").isPrefixOf s then
    match eatSpaces1 (s.drop 6) with
    | some r1 =>
      match r1 with
      | c :: r2 =>
        if c = '*' then
          match eatSpaces1 r2 with
          | some r3 => if (chars "FROM").isPrefixOf r3 then some () else none
          | none => none
        else none
      | [] => none
    | none => none
  else none

/-- Result record of the SQL validator. -/
structure ValidationResult where
  valid : Bool
  errors : List (List Char)
  warnings : List (List Char)
deriving Repr, DecidableEq

/-- Error message for empty or generation-error SQL. -/
def msgEmpty : List Char := chars "Empty or error SQL query"

/-- Error message for non-SELECT statements. -/
def msgOnlySelect : List Char := chars "Only SELECT queries are allowed"

/-- Warning for a missing LIMIT clause. -/
def msgNoLimit : List Char := chars "No LIMIT clause found"

/-- Error message for wildcard projection. -/
def msgSelectStar : List Char :=
  chars "SELECT * is not allowed - specify explicit columns"

/-- Embedding of `SQLValidator._validate_sql`
(src/api/nodes/sql_validator.py, lines 68-157). -/
def validateSql (sql : List Char) : ValidationResult :=
  if pyStrip sql = [] || (chars "-- Error").isPrefixOf sql then
    ⟨false, [msgEmpty], []⟩
  else
    let u := pyStrip (pyUpper sql)
    let e1 := detectDangerousSqlPatterns sql
    let e2 := e1 ++ (if (chars "SELECT").isPrefixOf u then [] else [msgOnlySelect])
    let w := if containsSeq (chars "LIMIT") u then [] else [msgNoLimit]
    let e3 := e2 ++ (if (findFirst matchSelectStarAt u).isSome then [msgSelectStar] else [])
    let e4 := e3 ++ (if sql.count ';' > 1 then [msgMultiple] else [])
    let e5 := e4 ++ havingBlockErrors u
    ⟨e5.isEmpty, e5, w⟩

/-- Python `str.split()` token count: number of maximal non-whitespace runs. -/
def tokenCountAux : Bool → List Char → Nat
  | _, [] => 0
  | inTok, c :: rest =>
    if isSpaceChar c then tokenCountAux false rest
    else (if inTok then 0 else 1) + tokenCountAux true rest

/-- Number of whitespace-separated tokens (`len(s.split())`). -/
def tokenCount (s : List Char) : Nat := tokenCountAux false s

/-- Pure-conversation patterns of the supervisor
(src/api/nodes/supervisor.py, lines 74-78). -/
def conversationPatterns : List (List Char) :=
  [chars "hello", chars "hi", chars "hey", chars "thank", chars "thanks",
   chars "bye", chars "goodbye", chars "how are you", chars "what can you do",
   chars "help me understand", chars "who are you", chars "what is this"]

/-- Data keywords of the supervisor (src/api/nodes/supervisor.py,
lines 57-71). -/
def dataKeywords : List (List Char) :=
  [chars "show", chars "list", chars "get", chars "find", chars "display",
   chars "give", chars "select", chars "query",
   chars "employee", chars "employees", chars "staff", chars "worker",
   chars "customer", chars "customers", chars "client", chars "user",
   chars "transaction", chars "transactions", chars "payment",
   chars "deposit", chars "withdrawal",
   chars "shift", chars "shifts", chars "schedule",
   chars "session", chars "sessions", chars "game", chars "gaming",
   chars "bet", chars "gambling",
   chars "equipment", chars "machine", chars "table",
   chars "revenue", chars "salary", chars "income", chars "money",
   chars "amount",
   chars "risk", chars "high-risk", chars "problem",
   chars "how many", chars "count", chars "total", chars "sum",
   chars "average", chars "avg",
   chars "top", chars "highest", chars "lowest", chars "first",
   chars "last", chars "best", chars "worst",
   chars "region", chars "department", chars "age", chars "gender",
   chars "behavior", chars "behaviors"]

/-- Anchored match for `^how\s+many`. -/
def startHowMany (s : List Char) : Bool :=
  (chars "how").isPrefixOf s &&
    (match eatSpaces1 (s.drop 3) with
     | some r => (chars "many").isPrefixOf r
     | none => false)

/-- Anchored match for `^what\s+is\s+the`. -/
def startWhatIsThe (s : List Char) : Bool :=
  (chars "what").isPrefixOf s &&
    (match eatSpaces1 (s.drop 4) with
     | some r =>
       (chars "is").isPrefixOf r &&
         (match eatSpaces1 (r.drop 2) with
          | some r2 => (chars "the").isPrefixOf r2
          | none => false)
     | none => false)

/-- Anchored match for `^who\s+has`. -/
def startWhoHas (s : List Char) : Bool :=
  (chars "who").isPrefixOf s &&
    (match eatSpaces1 (s.drop 3) with
     | some r => (chars "has").isPrefixOf r
     | none => false)

/-- Anchored match for `^which\s+`. -/
def startWhich (s : List Char) : Bool :=
  (chars "which").isPrefixOf s && (eatSpaces1 (s.drop 5)).isSome

/-- Anchored match for `^where\s+are`. -/
def startWhereAre (s : List Char) : Bool :=
  (chars "where").isPrefixOf s &&
    (match eatSpaces1 (s.drop 5) with
     | some r => (chars "are").isPrefixOf r
     | none => false)

/-- Anchored match for `^\d+\s+\w+` (such as "3 employees"). -/
def startNumWord (s : List Char) : Bool :=
  let d := s.takeWhile Char.isDigit
  !d.isEmpty &&
    (match eatSpaces1 (s.drop d.length) with
     | some r =>
       match r with
       | c :: _ => isWordChar c
       | [] => false
     | none => false)

/-- The data-question patterns of the supervisor
(src/api/nodes/supervisor.py, lines 151-158). -/
def questionPatternMatch (s : List Char) : Bool :=
  startHowMany s || startWhatIsThe s || startWhoHas s || startWhich s ||
    startWhereAre s || startNumWord s

/-- Intent and confidence returned by the supervisor (the presentation-only
`reasoning` string is omitted; its value never influences control flow). -/
structure SupervisorOutput where
  intent : String
  confidence : ℚ
deriving Repr, DecidableEq

/-- Embedding of `SupervisorNode._classify_by_keywords`
(src/api/nodes/supervisor.py, lines 114-181): conversation patterns first,
then data keywords (whole-word for single words, substring for phrases),
then question patterns, then the short-query default. -/
def classifyByKeywords (userInput : List Char) : SupervisorOutput :=
  let lower := pyStrip (pyLower userInput)
  if conversationPatterns.any (fun p =>
      lower == p || (p ++ [' ']).isPrefixOf lower || (p ++ [',']).isPrefixOf lower) then
    ⟨"conversation", 95 / 100⟩
  else if dataKeywords.any (fun kw =>
      if kw.contains ' ' then containsSeq kw lower else wordSearch kw lower) then
    ⟨"databricks", 95 / 100⟩
  else if questionPatternMatch lower then
    ⟨"databricks", 85 / 100⟩
  else if tokenCount userInput ≤ 3 then
    ⟨"databricks", 7 / 10⟩
  else
    ⟨"conversation", 6 / 10⟩

/-- Embedding of the LIMIT-enforcement tail of `_post_process_sql`
(src/api/nodes/sql_generator.py lines 363-369 and src/nodes/sql_generator.py
lines 233-239), the spec's `ensure_limit` text utility with its default
limit of 100: append `LIMIT 100` before the terminating semicolon when no
LIMIT substring exists, then ensure a trailing semicolon. -/
def ensureLimit (sql : List Char) : List Char :=
  let s1 :=
    if containsSeq (chars "LIMIT") (pyUpper sql) then sql
    else rstripSemi sql ++ chars " LIMIT 100"
  if s1.getLast? = some ';' then s1 else s1 ++ [';']

/-- Position matcher for the full nested-aggregate pattern
`AVG\s*\(\s*SUM\s*\(([^)]+)\)\s*\)` (case-insensitive); returns the matched
length and the captured group. -/
def matchNestedAggAt (s : List Char) : Option (Nat × List Char) :=
  if iPrefixOf (chars "AVG") s then
    match (s.drop 3).dropWhile isSpaceChar with
    | '(' :: r2 =>
      let r3 := r2.dropWhile isSpaceChar
      if iPrefixOf (chars "SUM") r3 then
        match (r3.drop 3).dropWhile isSpaceChar with
        | '(' :: r5 =>
          let cap := r5.takeWhile (· ≠ ')')
          if cap.isEmpty then none
          else
            match r5.drop cap.length with
            | ')' :: r6 =>
              match r6.dropWhile isSpaceChar with
              | ')' :: r8 => some (s.length - r8.length, cap)
              | _ => none
            | _ => none
        | _ => none
      else none
    | _ => none
  else none

/-- Position matcher for the detection pattern `AVG\s*\(\s*SUM\s*\(`
(case-insensitive). -/
def matchNestedAggOpenAt (s : List Char) : Option Unit :=
  if iPrefixOf (chars "AVG") s then
    match (s.drop 3).dropWhile isSpaceChar with
    | '(' :: r2 =>
      let r3 := r2.dropWhile isSpaceChar
      if iPrefixOf (chars "SUM") r3 then
        match (r3.drop 3).dropWhile isSpaceChar with
        | '(' :: _ => some ()
        | _ => none
      else none
    | _ => none
  else none

/-- Whether the nested-aggregate detection pattern occurs anywhere in `s`. -/
def nestedAggSearch (s : List Char) : Bool :=
  (findFirst (fun _ t => matchNestedAggOpenAt t) s).isSome

/-- `re.sub` for the nested-aggregate pattern with replacement `AVG(\1)`:
replace every non-overlapping occurrence left to right; `fuel` bounds the
scan (the text length suffices, every step consumes at least one
character). -/
def nestedAggSubAux (fuel : Nat) (s : List Char) : List Char :=
  match fuel with
  | 0 => s
  | fuel + 1 =>
    match s with
    | [] => []
    | c :: rest =>
      match matchNestedAggAt (c :: rest) with
      | some (len, cap) =>
        chars "AVG(" ++ cap ++ [')'] ++ nestedAggSubAux fuel ((c :: rest).drop len)
      | none => c :: nestedAggSubAux fuel rest

/-- Embedding of the nested-aggregation repair of `_post_process_sql`
(src/api/nodes/sql_generator.py, lines 350-354): when the detection pattern
matches, substitute every `AVG(SUM(x))` occurrence by `AVG(x)`. -/
def fixNestedAgg (sql : List Char) : List Char :=
  if nestedAggSearch sql then nestedAggSubAux sql.length sql else sql

/-- Python `str.rstrip()`: drop trailing whitespace. -/
def pyRStrip (s : List Char) : List Char :=
  (s.reverse.dropWhile isSpaceChar).reverse

/-- Position matcher for `\bGROUP\s+BY\b` (sql_generator.py line 393,
applied without flags to the uppercased SQL). -/
def matchGroupByCS (prev : Option Char) (s : List Char) : Option Unit :=
  if !boundaryOk prev then none
  else if (chars "GROUP").isPrefixOf s then
    match eatSpaces1 (s.drop 5) with
    | some r1 =>
      if (chars "BY").isPrefixOf r1 && boundaryAfter (r1.drop 2) then some ()
      else none
    | none => none
  else none

/-- Position matcher for `\bORDER\s+BY\b` with `re.IGNORECASE`
(sql_generator.py line 403). -/
def matchOrderByCI (prev : Option Char) (s : List Char) : Option Unit :=
  if !boundaryOk prev then none
  else if iPrefixOf (chars "ORDER") s then
    match eatSpaces1 (s.drop 5) with
    | some r1 =>
      if iPrefixOf (chars "BY") r1 && boundaryAfter (r1.drop 2) then some ()
      else none
    | none => none
  else none

/-- Position matcher for the relocation pattern
`\s+AND\s+(\w+\.risk_level\s*=\s*['"][^'"]+['"])` (case-insensitive);
returns the matched length and group 1. -/
def matchP1At (s : List Char) : Option (Nat × List Char) :=
  match eatSpaces1 s with
  | none => none
  | some r1 =>
    if iPrefixOf (chars "AND") r1 then
      match eatSpaces1 (r1.drop 3) with
      | none => none
      | some g0 =>
        let w := g0.takeWhile isWordChar
        if w.isEmpty then none
        else
          match g0.drop w.length with
          | '.' :: r2 =>
            if iPrefixOf (chars "risk_level") r2 then
              match (r2.drop 10).dropWhile isSpaceChar with
              | '=' :: r4 =>
                match r4.dropWhile isSpaceChar with
                | q :: r6 =>
                  if q = sqc || q = dqc then
                    let body := r6.takeWhile (fun c => c ≠ sqc && c ≠ dqc)
                    if body.isEmpty then none
                    else
                      match r6.drop body.length with
                      | q2 :: r7 =>
                        if q2 = sqc || q2 = dqc then
                          some (s.length - r7.length, g0.take (g0.length - r7.length))
                        else none
                      | [] => none
                  else none
                | [] => none
              | _ => none
            else none
          | _ => none
    else none

/-- Regex `\d+`: at least one digit, maximal run; returns the rest. -/
def eatDigits1 (s : List Char) : Option (List Char) :=
  let d := s.takeWhile Char.isDigit
  if d.isEmpty then none else some (s.drop d.length)

/-- Position matcher for the relocation pattern
`\s+AND\s+(\w+\.age\s+BETWEEN\s+\d+\s+AND\s+\d+)` (case-insensitive). -/
def matchP2At (s : List Char) : Option (Nat × List Char) :=
  match eatSpaces1 s with
  | none => none
  | some r1 =>
    if iPrefixOf (chars "AND") r1 then
      match eatSpaces1 (r1.drop 3) with
      | none => none
      | some g0 =>
        let w := g0.takeWhile isWordChar
        if w.isEmpty then none
        else
          match g0.drop w.length with
          | '.' :: r2 =>
            if iPrefixOf (chars "age") r2 then
              match eatSpaces1 (r2.drop 3) with
              | none => none
              | some r3 =>
                if iPrefixOf (chars "BETWEEN") r3 then
                  match eatSpaces1 (r3.drop 7) with
                  | none => none
                  | some r4 =>
                    match eatDigits1 r4 with
                    | none => none
                    | some r5 =>
                      match eatSpaces1 r5 with
                      | none => none
                      | some r6 =>
                        if iPrefixOf (chars "AND") r6 then
                          match eatSpaces1 (r6.drop 3) with
                          | none => none
                          | some r7 =>
                            match eatDigits1 r7 with
                            | none => none
                            | some r8 =>
                              some (s.length - r8.length, g0.take (g0.length - r8.length))
                        else none
                else none
            else none
          | _ => none
    else none

/-- Position matcher for the relocation pattern
`\s+AND\s+(\w+\.(online|offline)_gambling_participation\s*=\s*\d+)`
(case-insensitive). -/
def matchP3At (s : List Char) : Option (Nat × List Char) :=
  match eatSpaces1 s with
  | none => none
  | some r1 =>
    if iPrefixOf (chars "AND") r1 then
      match eatSpaces1 (r1.drop 3) with
      | none => none
      | some g0 =>
        let w := g0.takeWhile isWordChar
        if w.isEmpty then none
        else
          match g0.drop w.length with
          | '.' :: r2 =>
            let alt : Option (List Char) :=
              if iPrefixOf (chars "online") r2 then some (r2.drop 6)
              else if iPrefixOf (chars "offline") r2 then some (r2.drop 7)
              else none
            match alt with
            | none => none
            | some r3 =>
              if iPrefixOf (chars "_gambling_participation") r3 then
                match (r3.drop 23).dropWhile isSpaceChar with
                | '=' :: r4 =>
                  match eatDigits1 (r4.dropWhile isSpaceChar) with
                  | none => none
                  | some r5 =>
                    some (s.length - r5.length, g0.take (g0.length - r5.length))
                | _ => none
              else none
          | _ => none
    else none

/-- Aggregate names of the rewriter's look-behind check
(sql_generator.py line 429, without CAST). -/
def aggNamesF : List (List Char) :=
  [chars "SUM", chars "COUNT", chars "AVG", chars "MAX", chars "MIN"]

/-- Position matcher for the cleanup pattern `\s+AND\s+AND\s+`
(case-insensitive); returns the matched length. -/
def matchAndAndAt (s : List Char) : Option Nat :=
  match eatSpaces1 s with
  | none => none
  | some r1 =>
    if iPrefixOf (chars "AND") r1 then
      match eatSpaces1 (r1.drop 3) with
      | none => none
      | some r2 =>
        if iPrefixOf (chars "AND") r2 then
          match eatSpaces1 (r2.drop 3) with
          | none => none
          | some r3 => some (s.length - r3.length)
        else none
    else none

/-- `re.sub(r'\s+AND\s+AND\s+', ' AND ', ...)`: replace every occurrence
left to right. -/
def subAndAndAux (fuel : Nat) (s : List Char) : List Char :=
  match fuel with
  | 0 => s
  | fuel + 1 =>
    match s with
    | [] => []
    | c :: rest =>
      match matchAndAndAt (c :: rest) with
      | some len => chars " AND " ++ subAndAndAux fuel ((c :: rest).drop len)
      | none => c :: subAndAndAux fuel rest

/-- The double-AND cleanup substitution (sql_generator.py line 440). -/
def subAndAnd (s : List Char) : List Char := subAndAndAux s.length s

/-- `re.sub(r'^\s+AND\s+', '', ...)`: strip one leading `AND` with its
surrounding whitespace (sql_generator.py line 441). -/
def stripLeadingAnd (s : List Char) : List Char :=
  match eatSpaces1 s with
  | none => s
  | some r1 =>
    if iPrefixOf (chars "AND") r1 then
      match eatSpaces1 (r1.drop 3) with
      | some r2 => r2
      | none => s
    else s

/-- One iteration of the reversed removal loop (sql_generator.py lines
436-441): cut the span, strip the tail, then run both connective
cleanups. -/
def removeCond (nh : List Char) (st en : Nat) : List Char :=
  stripLeadingAnd (subAndAnd (nh.take st ++ pyStrip (nh.drop en)))

/-- Python `" AND ".join`. -/
def joinAnd : List (List Char) → List Char
  | [] => []
  | [c] => c
  | c :: rest => c ++ chars " AND " ++ joinAnd rest

/-- Embedding of `SQLGenerator._fix_having_clause`
(src/api/nodes/sql_generator.py, lines 373-454): locate the HAVING clause,
search it for the three whitelisted relocatable predicates, and when at
least one is found outside an aggregate call, remove it from the HAVING
clause and append it conjunctively before GROUP BY.  Requires both a WHERE
clause and a GROUP BY clause, otherwise the SQL is returned unchanged. -/
def fixHavingClause (sql : List Char) : List Char :=
  let u := pyUpper sql
  if !containsSeq (chars "HAVING") u then sql
  else
    match findFirst (matchWordAt (chars "HAVING")) u with
    | none => sql
    | some hv =>
      match findFirst (matchWordAt (chars "WHERE")) u, findFirst matchGroupByCS u with
      | some _, some gb =>
        let havingStart := hv.1 + 6
        let havingContent := sql.drop havingStart
        let havingEnd :=
          match findFirst matchOrderByCI havingContent with
          | some ob => havingStart + ob.1
          | none =>
            match findFirst (matchWordAtCI (chars "LIMIT")) havingContent with
            | some lm => havingStart + lm.1
            | none => (rstripSemi sql).length
        let havingClause := pyStrip ((sql.drop havingStart).take (havingEnd - havingStart))
        let cands := [findFirst (fun _ s => matchP1At s) havingClause,
                      findFirst (fun _ s => matchP2At s) havingClause,
                      findFirst (fun _ s => matchP3At s) havingClause]
        let moved := cands.filterMap (fun om =>
          match om with
          | some (st, len, cond) =>
            if aggOpenSearch aggNamesF (havingClause.take st) then none
            else some (cond, st, st + len)
          | none => none)
        if moved.isEmpty then sql
        else
          let newHaving := moved.reverse.foldl
            (fun nh t => removeCond nh t.2.1 t.2.2) havingClause
          let sql2 := sql.take havingStart ++ newHaving ++ sql.drop havingEnd
          let whereEndPos := gb.1
          let condStr := joinAnd (moved.map (fun t => t.1))
          pyRStrip (sql2.take whereEndPos) ++ chars " AND " ++ condStr ++ [' ']
            ++ sql2.drop whereEndPos
      | _, _ => sql

/-- The workflow state threaded through the LangGraph pipeline
(src/workflow.py `create_initial_state`, src/api/state.py).  Python `None`
is `none`; the initially-empty `feasibility_check` and `validation_result`
dicts are `none`.  The conversation-history and schema-cache fields are
omitted: no embedded routing or response logic reads them. -/
structure WorkflowState where
  user_input : List Char
  intent : String
  confidence : ℚ
  feasibility_feasible : Option Bool
  generated_sql : Option (List Char)
  validation_result : Option ValidationResult
  error_message : Option (List Char)
  response : List Char
  current_node : String
deriving Repr, DecidableEq

/-- Embedding of `create_initial_state` (src/workflow.py, lines 209-238). -/
def mkInitialState (userInput : List Char) : WorkflowState :=
  ⟨userInput, "conversation", 0, none, none, none, none, [], "start"⟩

/-- Python truthiness of an optional string (`None` and `""` are falsy). -/
def optTruthy : Option (List Char) → Bool
  | none => false
  | some s => !s.isEmpty

/-- `validation_result.get("valid", False)`. -/
def validationValid (st : WorkflowState) : Bool :=
  match st.validation_result with
  | some vr => vr.valid
  | none => false

/-- `validation_result.get("errors", [])`. -/
def validationErrors (st : WorkflowState) : List (List Char) :=
  match st.validation_result with
  | some vr => vr.errors
  | none => []

/-- Embedding of `route_from_supervisor` (src/workflow.py, lines 27-54) with
the default confidence threshold 0.75 (src/config.py). -/
def routeFromSupervisor (st : WorkflowState) : String :=
  if st.intent = "databricks" ∧ (3 / 4 : ℚ) ≤ st.confidence then "schema_feasibility"
  else if st.confidence < 3 / 4 then "fallback"
  else if st.intent = "conversation" then "conversation"
  else "fallback"

/-- Embedding of `route_from_feasibility` (src/workflow.py, lines 57-75). -/
def routeFromFeasibility (st : WorkflowState) : String :=
  match st.feasibility_feasible with
  | some true => "sql_generator"
  | _ => "fallback"

/-- Embedding of `route_from_validator` (src/workflow.py, lines 78-97). -/
def routeFromValidator (st : WorkflowState) : String :=
  if validationValid st then "casino_api_executor" else "fallback"

/-- The routing reason string computed by `route_from_validator` for its
log line: on failure it carries the first validator error. -/
def routeFromValidatorReason (st : WorkflowState) : List Char :=
  if validationValid st then chars "SQL is valid"
  else
    chars "SQL validation failed: " ++
      (match validationErrors st with
       | [] => chars "unknown"
       | e :: _ => e)

/-- Embedding of `route_from_executor` (src/workflow.py, lines 100-117). -/
def routeFromExecutor (st : WorkflowState) : String :=
  if optTruthy st.error_message then "fallback" else "result_summarizer"

/-- The execution-error response of the fallback node
(src/api/nodes/fallback.py, line 65). -/
def errResponse (e sql : List Char) : List Char :=
  chars "❌ **Query Execution Error**\n\n" ++ e
    ++ chars "\n\n**Generated SQL:**\n```sql\n" ++ sql
    ++ chars "\n```\n\nPlease check the SQL or try rephrasing your question."

/-- The generated-but-not-executed response of the fallback node
(src/api/nodes/fallback.py, line 68). -/
def noErrResponse (sql : List Char) : List Char :=
  chars "❌ **Query could not be executed**\n\nThe SQL was generated but couldn't be processed.\n\n**Generated SQL:**\n```sql\n"
    ++ sql ++ chars "\n```"

/-- Embedding of `FallbackClarifier.__call__` (src/api/nodes/fallback.py,
lines 37-85): when SQL was generated and is not the generation-error marker,
the response is built deterministically from the error message and the SQL;
otherwise the node delegates to `_generate_clarification`, whose outcome
(keyword-dependent canned text or an external LLM call) is the `clarify`
parameter. -/
def fallbackResponse (clarify : List Char) (st : WorkflowState) : List Char :=
  match st.generated_sql with
  | some sql =>
    if !sql.isEmpty && !(chars "-- Error").isPrefixOf sql then
      match st.error_message with
      | some e => if !e.isEmpty then errResponse e sql else noErrResponse sql
      | none => noErrResponse sql
    else clarify
  | none => clarify

/-- State update performed by the fallback node. -/
def applyFallback (clarify : List Char) (st : WorkflowState) : WorkflowState :=
  { st with response := fallbackResponse clarify st, current_node := "fallback" }

/-- State update performed by the SQL validator node
(src/api/nodes/sql_validator.py, lines 40-66). -/
def applyValidator (st : WorkflowState) : WorkflowState :=
  { st with validation_result := some (validateSql (st.generated_sql.getD [])),
            current_node := "sql_validator" }

/-- State update performed by the supervisor node
(src/api/nodes/supervisor.py, lines 80-112). -/
def applySupervisor (st : WorkflowState) : WorkflowState :=
  { st with intent := (classifyByKeywords st.user_input).intent,
            confidence := (classifyByKeywords st.user_input).confidence,
            current_node := "supervisor" }

/-- The conditional-edge map of `build_workflow` (src/workflow.py, lines
120-206): deterministic next node after `node` ran on state `st`;
`conversation`, `fallback` and `result_summarizer` are wired to END. -/
def graphNext (node : String) (st : WorkflowState) : String :=
  if node = "supervisor" then routeFromSupervisor st
  else if node = "schema_feasibility" then routeFromFeasibility st
  else if node = "sql_generator" then "sql_validator"
  else if node = "sql_validator" then routeFromValidator st
  else if node = "casino_api_executor" then routeFromExecutor st
  else "END"

/-- One node execution: the supervisor, validator and fallback nodes are
embedded; the remaining nodes (schema feasibility, SQL generation, query
execution, summarization, conversation) depend on external services and are
given by the oracle `ext`. -/
def stepNode (clarify : List Char) (ext : String → WorkflowState → WorkflowState)
    (node : String) (st : WorkflowState) : WorkflowState :=
  if node = "supervisor" then applySupervisor st
  else if node = "sql_validator" then applyValidator st
  else if node = "fallback" then applyFallback clarify st
  else ext node st

/-- Run the state machine from `node`, recording visited nodes; `fuel`
bounds the number of steps (the graph is acyclic, so any fuel larger than
the longest path gives the full run). -/
def runTrace (clarify : List Char) (ext : String → WorkflowState → WorkflowState) :
    Nat → String → WorkflowState → List String × WorkflowState
  | 0, _, st => ([], st)
  | fuel + 1, node, st =>
    if node = "END" then ([], st)
    else
      let st2 := stepNode clarify ext node st
      let nxt := graphNext node st2
      let r := runTrace clarify ext fuel nxt st2
      (node :: r.1, r.2)

/-- Spec-side definition, following the spec's words for comparison with the
code: the number of `;` characters occurring outside of single-quoted SQL
string literals. -/
def specSemisOutsideAux : Bool → List Char → Nat
  | _, [] => 0
  | inStr, c :: rest =>
    if c = sqc then specSemisOutsideAux (!inStr) rest
    else if c = ';' && !inStr then 1 + specSemisOutsideAux inStr rest
    else specSemisOutsideAux inStr rest

/-- Semicolons outside string literals (spec-side notion for claim C3). -/
def specSemicolonsOutsideLiterals (s : List Char) : Nat :=
  specSemisOutsideAux false s

/-- Counterexample input for claim C3: a single SELECT statement whose only
extra semicolon lies inside a quoted string value. -/
def exC3Sql : List Char :=
  chars "SELECT name FROM t WHERE name = " ++ [sqc] ++ chars "a;b" ++ [sqc] ++ chars ";"

/-- Counterexample input for claim C4: a HAVING clause carrying an
`AND region_flag = 1` predicate, which is not on the rewriter's whitelist. -/
def exC4FlagSql : List Char :=
  chars "SELECT region, SUM(amt) AS s FROM t WHERE amt > 0 GROUP BY region HAVING SUM(amt) > 10 AND region_flag = 1 LIMIT 5;"

/-- Representative whitelisted input for the amended claim C4. -/
def exC4InSql : List Char :=
  chars "SELECT c.region, SUM(t.amt) AS s FROM t c WHERE c.age > 18 GROUP BY c.region HAVING SUM(t.amt) > 10 AND cb.risk_level = "
    ++ [sqc] ++ chars "high" ++ [sqc] ++ chars " ORDER BY s DESC LIMIT 3;"

/-- Rewriter output on `exC4InSql` (the source drops the stripped spaces of
the HAVING clause when splicing it back, hence `HAVINGSUM` and `10ORDER`). -/
def exC4OutSql : List Char :=
  chars "SELECT c.region, SUM(t.amt) AS s FROM t c WHERE c.age > 18 AND cb.risk_level = "
    ++ [sqc] ++ chars "high" ++ [sqc]
    ++ chars " GROUP BY c.region HAVINGSUM(t.amt) > 10ORDER BY s DESC LIMIT 3;"

/-- The relocated predicate of `exC4InSql`, as it appears in the WHERE
clause of the output. -/
def exC4Pred : List Char :=
  chars "cb.risk_level = " ++ [sqc] ++ chars "high" ++ [sqc]

/-- Counterexample input for claim C5: the inner expression is itself an
aggregate call. -/
def exC5Sql : List Char := chars "SELECT AVG(SUM(SUM(total_bets))) FROM s;"

/-- Generated SQL used by the claim C2 witness (fails validation on
wildcard projection). -/
def exC2Sql : List Char := chars "SELECT * FROM hr_casino.employees LIMIT 10;"

/-- Generated SQL used by the claim C8 witness (passes validation). -/
def exC8Sql : List Char := chars "SELECT id FROM t LIMIT 10;"

/-- Execution error used by the claim C8 witness. -/
def exC8Err : List Char := chars "Table t not found"


/-! Helper lemmas. -/

theorem isPrefixOf_length {p s : List Char} (h : p.isPrefixOf s = true) :
    p.length ≤ s.length := by
  induction p generalizing s with
  | nil => simp
  | cons a pa ih =>
    cases s with
    | nil => simp [List.isPrefixOf] at h
    | cons b sb =>
      simp only [List.isPrefixOf, Bool.and_eq_true] at h
      simpa using ih h.2

theorem containsSeq_length {p s : List Char} (h : containsSeq p s = true) :
    p.length ≤ s.length := by
  induction s with
  | nil => exact isPrefixOf_length h
  | cons c rest ih =>
    simp only [containsSeq, Bool.or_eq_true] at h
    rcases h with h | h
    · exact isPrefixOf_length h
    · exact Nat.le_trans (ih h) (by simp)

theorem isPrefixOf_append_self (p t : List Char) :
    p.isPrefixOf (p ++ t) = true := by
  induction p with
  | nil => simp [List.isPrefixOf]
  | cons a pa ih => simp [List.isPrefixOf, ih]

theorem containsSeq_of_isPrefixOf {p s : List Char}
    (h : p.isPrefixOf s = true) : containsSeq p s = true := by
  cases s with
  | nil => simpa [containsSeq] using h
  | cons c rest => simp [containsSeq, h]

theorem containsSeq_middle (a x b : List Char) :
    containsSeq x (a ++ x ++ b) = true := by
  induction a with
  | nil =>
    simpa using containsSeq_of_isPrefixOf (isPrefixOf_append_self x b)
  | cons c ca ih =>
    simp only [List.cons_append, containsSeq, Bool.or_eq_true]
    exact Or.inr ih

theorem pyLower_length (x : List Char) : (pyLower x).length = x.length := by
  simp [pyLower]

theorem filterCols_any_false (x : List Char) (hx : x.length ≤ 1) :
    commonFilterCols.any (fun fc => containsSeq fc (pyLower x)) = false := by
  have hlen : (pyLower x).length ≤ 1 := by rw [pyLower_length]; exact hx
  rw [List.any_eq_false]
  intro fc hfc
  cases hc : containsSeq fc (pyLower x) with
  | false => simp
  | true =>
    exfalso
    have hle := containsSeq_length hc
    have h2 : 2 ≤ fc.length := by fin_cases hfc <;> decide
    omega

theorem havingLoopError_eq_none (gb : List Char) (cols : List (List Char)) :
    havingLoopError gb cols = none := by
  induction cols with
  | nil => rfl
  | cons cm rest ih =>
    have hlen : ((cm.drop 1).take 1).length ≤ 1 :=
      List.length_take_le 1 (cm.drop 1)
    simp only [havingLoopError]
    split_ifs with h1 h2 h3
    · exact ih
    · exfalso
      rw [filterCols_any_false _ hlen] at h3
      exact absurd h3 (by simp)
    · exact ih
    · exact ih

theorem havingBlockErrors_eq_nil (u : List Char) : havingBlockErrors u = [] := by
  unfold havingBlockErrors
  split
  · split <;> simp [havingLoopError_eq_none]
  · rfl

theorem isPrefixOf_refl (p : List Char) : p.isPrefixOf p = true := by
  induction p with
  | nil => rfl
  | cons a pa ih => simp [List.isPrefixOf, ih]

theorem containsSeq_append_right (a : List Char) {x b : List Char}
    (h : containsSeq x b = true) : containsSeq x (a ++ b) = true := by
  induction a with
  | nil => simpa using h
  | cons c ca ih =>
    simp only [List.cons_append, containsSeq, Bool.or_eq_true]
    exact Or.inr ih


theorem validateSql_valid_iff (sql : List Char) :
    (validateSql sql).valid = true ↔ (validateSql sql).errors = [] := by
  unfold validateSql
  split
  · simp [msgEmpty]
  · simp [List.isEmpty_iff]

theorem validateSql_valid_then_wellformed (sql : List Char)
    (h : (validateSql sql).valid = true) :
    sql ≠ [] ∧ (chars "-- Error").isPrefixOf sql = false := by
  unfold validateSql at h
  by_cases hc : (decide (pyStrip sql = []) || (chars "-- Error").isPrefixOf sql) = true
  · rw [if_pos hc] at h; exact absurd h (by simp)
  · simp only [Bool.or_eq_true, decide_eq_true_eq, not_or] at hc
    obtain ⟨hstrip, hmark⟩ := hc
    constructor
    · intro hnil
      exact hstrip (by simp [hnil, pyStrip])
    · cases hpre : (chars "-- Error").isPrefixOf sql with
      | false => rfl
      | true => exact absurd hpre hmark

theorem msgMultiple_mem_validateSql (sql : List Char)
    (h1 : pyStrip sql ≠ []) (h2 : (chars "-- Error").isPrefixOf sql = false) :
    msgMultiple ∈ (validateSql sql).errors ↔ 1 < sql.count ';' := by
  have hddl : ∀ kw ∈ ddlKeywords, ¬ msgDangerous kw = msgMultiple := by decide
  have hinfo : msgMultiple ≠ msgInfoSchema := by decide
  have hsel : msgMultiple ≠ msgOnlySelect := by decide
  have hstar : msgMultiple ≠ msgSelectStar := by decide
  unfold validateSql
  rw [if_neg (by simp [h1, h2])]
  simp only [detectDangerousSqlPatterns, havingBlockErrors_eq_nil, List.append_nil,
    List.mem_append, List.mem_map, List.mem_filter]
  constructor
  · rintro (((((⟨kw, hkw, heq⟩ | hm1) | hm2) | hm3) | hm4) | hm5)
    · exact absurd heq (hddl kw hkw.1)
    · revert hm1; split <;> simp_all
    · revert hm2; split <;> simp_all
    · revert hm3; split <;> simp_all
    · revert hm4; split <;> simp_all
    · revert hm5; split <;> simp_all
  · intro hcount
    right
    simp [hcount]

/-- Claim C1: the validator marks "SELECT * FROM t" invalid, "DROP TABLE t"
invalid, "SELECT id FROM t LIMIT 10;" valid, and
"SELECT id FROM t; DROP TABLE t;" invalid. -/
theorem claim_C1 :
    (validateSql (chars "SELECT * FROM t")).valid = false ∧
    (validateSql (chars "DROP TABLE t")).valid = false ∧
    (validateSql (chars "SELECT id FROM t LIMIT 10;")).valid = true ∧
    (validateSql (chars "SELECT id FROM t; DROP TABLE t;")).valid = false := by
  refine ⟨?_, ?_, ?_, ?_⟩ <;> decide

/-- Claim C9: validation is a total function into a structured
{valid, errors, warnings} record (totality is the type of `validateSql`),
valid holds exactly when the error list is empty, and violations are
collected rather than short-circuited: an input with both a DROP keyword and
two statements carries both corresponding errors. -/
theorem claim_C9 :
    (∀ sql : List Char, (validateSql sql).valid = true ↔ (validateSql sql).errors = []) ∧
    msgDangerous (chars "DROP") ∈ (validateSql (chars "SELECT id FROM t; DROP TABLE t;")).errors ∧
    msgMultiple ∈ (validateSql (chars "SELECT id FROM t; DROP TABLE t;")).errors ∧
    (validateSql (chars "SELECT id FROM t; DROP TABLE t;")).valid = false :=
  ⟨validateSql_valid_iff, by decide, by decide, by decide⟩

/-- Claim C3, counterexample: on a single SELECT statement whose only extra
semicolon lies inside a quoted string value (one semicolon outside string
literals), the validator nevertheless reports the multiple-statements error,
because it counts raw `;` characters without string-literal awareness. -/
theorem claim_C3_counterexample :
    msgMultiple ∈ (validateSql exC3Sql).errors ∧
    specSemicolonsOutsideLiterals exC3Sql = 1 := by
  refine ⟨?_, ?_⟩ <;> decide

/-- Claim C3, amended: for every non-empty, non-error-marker SQL string, the
validator reports the multiple-statements error exactly when the raw string
contains more than one `;` character, counted anywhere, including inside
string literals. -/
theorem claim_C3 (sql : List Char) (h1 : pyStrip sql ≠ [])
    (h2 : (chars "-- Error").isPrefixOf sql = false) :
    msgMultiple ∈ (validateSql sql).errors ↔ 1 < sql.count ';' :=
  msgMultiple_mem_validateSql sql h1 h2

/-- Witness for claim C3 at the two-statement input. -/
theorem claim_C3_witness :
    pyStrip (chars "SELECT id FROM t; DROP TABLE t;") ≠ [] ∧
    (chars "-- Error").isPrefixOf (chars "SELECT id FROM t; DROP TABLE t;") = false ∧
    (msgMultiple ∈ (validateSql (chars "SELECT id FROM t; DROP TABLE t;")).errors ↔
      1 < (chars "SELECT id FROM t; DROP TABLE t;").count ';') :=
  ⟨by decide, by decide, claim_C3 _ (by decide) (by decide)⟩

/-- Claim C7, counterexample: on the empty input the keyword classifier
returns intent "databricks" with confidence 0.7 (the short-query default
branch), not the clarification intent with confidence 0. -/
theorem claim_C7_counterexample :
    (classifyByKeywords (chars "")).intent = "databricks" ∧
    (classifyByKeywords (chars "")).intent ≠ "fallback" ∧
    (classifyByKeywords (chars "")).confidence = 7 / 10 ∧
    (classifyByKeywords (chars "")).confidence ≠ 0 := by
  have h : classifyByKeywords (chars "") = ⟨"databricks", 7 / 10⟩ := rfl
  refine ⟨by decide, by decide, by rw [h], by rw [h]; norm_num⟩

/-- Claim C7, amended: the classifier has no empty-input special case; the
empty string falls through to the short-query default and is classified as
a data query ("databricks") with confidence 0.7. -/
theorem claim_C7 :
    classifyByKeywords (chars "") = ⟨"databricks", 7 / 10⟩ := rfl

/-- Claim C6: `ensure_limit` on "SELECT id FROM t" yields a string with
exactly one LIMIT clause, exactly one semicolon (the terminating one), and
is idempotent on its own output. -/
theorem claim_C6 :
    ensureLimit (chars "SELECT id FROM t") = chars "SELECT id FROM t LIMIT 100;" ∧
    countOccur (chars "LIMIT") (ensureLimit (chars "SELECT id FROM t")) = 1 ∧
    (ensureLimit (chars "SELECT id FROM t")).count ';' = 1 ∧
    (ensureLimit (chars "SELECT id FROM t")).getLast? = some ';' ∧
    ensureLimit (ensureLimit (chars "SELECT id FROM t")) = ensureLimit (chars "SELECT id FROM t") := by
  refine ⟨?_, ?_, ?_, ?_, ?_⟩ <;> decide

/-- Claim C4, counterexample: an `AND region_flag = 1` predicate in the
post-aggregation clause is not on the rewriter's whitelist, so the output
equals the input and the predicate's only occurrence stays in the HAVING
clause; it is not relocated to the WHERE clause. -/
theorem claim_C4_counterexample :
    fixHavingClause exC4FlagSql = exC4FlagSql ∧
    countOccur (chars "region_flag") exC4FlagSql = 1 ∧
    containsSeq (chars "HAVING SUM(amt) > 10 AND region_flag = 1 LIMIT") exC4FlagSql = true := by
  refine ⟨?_, ?_, ?_⟩ <;> decide

/-- Claim C4, amended: the relocation applies to the three whitelisted
alias-qualified predicate patterns (risk_level equality, age BETWEEN,
gambling-participation flags) found in the HAVING clause outside aggregate
calls, when the statement has both a WHERE and a GROUP BY clause; on a
representative whitelisted input the predicate appears conjunctively in the
WHERE clause of the output and its occurrence in the post-aggregation
clause is gone. -/
theorem claim_C4 :
    fixHavingClause exC4InSql = exC4OutSql ∧
    containsSeq (chars "WHERE c.age > 18 AND " ++ exC4Pred ++ chars " GROUP BY") exC4OutSql = true ∧
    countOccur (chars "risk_level") exC4OutSql = 1 ∧
    countOccur (chars "risk_level") exC4InSql = 1 := by
  refine ⟨?_, ?_, ?_, ?_⟩ <;> decide

/-- Claim C5, counterexample: on `AVG(SUM(SUM(total_bets)))` the rewriter
drops only one inner aggregate, and its output still contains the nested
aggregate pattern `AVG(SUM(`. -/
theorem claim_C5_counterexample :
    fixNestedAgg exC5Sql = chars "SELECT AVG(SUM(total_bets)) FROM s;" ∧
    nestedAggSearch (fixNestedAgg exC5Sql) = true := by
  refine ⟨?_, ?_⟩ <;> decide

/-- Claim C10: the keyword classifier is a total deterministic function:
for every input the intent is one of conversation/databricks/fallback (in
fact never fallback), the confidence is one of 0.95, 0.85, 0.7, 0.6 and
lies in [0,1], and equal inputs give equal outputs; no external call is
involved (the function is pure by construction). -/
theorem claim_C10 : ∀ s : List Char,
    ((classifyByKeywords s).intent = "conversation" ∨
      (classifyByKeywords s).intent = "databricks" ∨
      (classifyByKeywords s).intent = "fallback") ∧
    ((classifyByKeywords s).confidence = 95 / 100 ∨
      (classifyByKeywords s).confidence = 85 / 100 ∨
      (classifyByKeywords s).confidence = 7 / 10 ∨
      (classifyByKeywords s).confidence = 6 / 10) ∧
    0 ≤ (classifyByKeywords s).confidence ∧
    (classifyByKeywords s).confidence ≤ 1 ∧
    ∀ t : List Char, t = s → classifyByKeywords t = classifyByKeywords s := by
  intro s
  refine ⟨?_, ?_, ?_, ?_, fun t ht => by rw [ht]⟩ <;>
    (simp only [classifyByKeywords]; split_ifs <;> norm_num)

/-- Claim C2, amended: when drafted SQL that is non-empty and not the
generation-error marker fails validation, the run from the validator visits
exactly the fallback node and ends (execution is never entered), the
terminal response is non-empty and contains the generated SQL, and the
first validator error is carried in the routing decision's logged reason
(it does not appear in the response itself). -/
theorem claim_C2 (clarify : List Char) (ext : String → WorkflowState → WorkflowState)
    (st : WorkflowState) (sql e0 : List Char) (rest : List (List Char))
    (hsql : st.generated_sql = some sql)
    (hne : sql ≠ [])
    (hnm : (chars "-- Error").isPrefixOf sql = false)
    (hinvalid : (validateSql sql).valid = false)
    (herr : (validateSql sql).errors = e0 :: rest)
    (hem : st.error_message = none) :
    (runTrace clarify ext 10 "sql_validator" st).1 = ["sql_validator", "fallback"] ∧
    "casino_api_executor" ∉ (runTrace clarify ext 10 "sql_validator" st).1 ∧
    (runTrace clarify ext 10 "sql_validator" st).2.current_node = "fallback" ∧
    graphNext "fallback" (runTrace clarify ext 10 "sql_validator" st).2 = "END" ∧
    (runTrace clarify ext 10 "sql_validator" st).2.response = noErrResponse sql ∧
    containsSeq sql (runTrace clarify ext 10 "sql_validator" st).2.response = true ∧
    (runTrace clarify ext 10 "sql_validator" st).2.response ≠ [] ∧
    containsSeq e0 (routeFromValidatorReason (applyValidator st)) = true := by
  have hemp : sql.isEmpty = false := by
    cases sql with
    | nil => exact absurd rfl hne
    | cons a l => rfl
  have hrun : runTrace clarify ext 10 "sql_validator" st =
      (["sql_validator", "fallback"], applyFallback clarify (applyValidator st)) := by
    simp [runTrace, stepNode, graphNext, routeFromValidator, validationValid,
      applyValidator, hsql, hinvalid]
  have hresp : (applyFallback clarify (applyValidator st)).response = noErrResponse sql := by
    simp [applyFallback, fallbackResponse, applyValidator, hsql, hem, hemp, hnm]
  rw [hrun]
  refine ⟨rfl, by simp, rfl, rfl, hresp, ?_, ?_, ?_⟩
  · rw [hresp]
    unfold noErrResponse
    rw [List.append_assoc]
    exact containsSeq_append_right _ (containsSeq_of_isPrefixOf (isPrefixOf_append_self sql _))
  · rw [hresp]
    unfold noErrResponse
    intro hcontra
    have := congrArg List.length hcontra
    simp [List.length_append] at this
    exact absurd this.1 (by decide)
  · have hreason : routeFromValidatorReason (applyValidator st) =
        chars "SQL validation failed: " ++ e0 := by
      simp [routeFromValidatorReason, validationValid, validationErrors,
        applyValidator, hsql, hinvalid, herr]
    rw [hreason]
    have h0 : e0.isPrefixOf (e0 ++ []) = true := isPrefixOf_append_self e0 []
    rw [List.append_nil] at h0
    exact containsSeq_append_right _ (containsSeq_of_isPrefixOf h0)

/-- Claim C2, counterexample: for SQL rejected for wildcard projection, the
terminal response of the run is the fallback node's generated-but-not-
executed message, which does not contain the first validator error. -/
theorem claim_C2_counterexample :
    (validateSql exC2Sql).errors = [msgSelectStar] ∧
    (runTrace [] (fun _ s => s) 10 "sql_validator"
        { mkInitialState (chars "show me employees") with generated_sql := some exC2Sql }).2.response
      = noErrResponse exC2Sql ∧
    containsSeq msgSelectStar (noErrResponse exC2Sql) = false := by
  refine ⟨?_, ?_, ?_⟩ <;> decide

/-- Witness for claim C2 at a concrete failing-validation run. -/
theorem claim_C2_witness :
    (validateSql exC2Sql).valid = false ∧
    ((runTrace [] (fun _ s => s) 10 "sql_validator"
        { mkInitialState (chars "show me employees") with generated_sql := some exC2Sql }).1
      = ["sql_validator", "fallback"] ∧
      "casino_api_executor" ∉ (runTrace [] (fun _ s => s) 10 "sql_validator"
        { mkInitialState (chars "show me employees") with generated_sql := some exC2Sql }).1 ∧
      (runTrace [] (fun _ s => s) 10 "sql_validator"
        { mkInitialState (chars "show me employees") with generated_sql := some exC2Sql }).2.current_node = "fallback" ∧
      graphNext "fallback" (runTrace [] (fun _ s => s) 10 "sql_validator"
        { mkInitialState (chars "show me employees") with generated_sql := some exC2Sql }).2 = "END" ∧
      (runTrace [] (fun _ s => s) 10 "sql_validator"
        { mkInitialState (chars "show me employees") with generated_sql := some exC2Sql }).2.response = noErrResponse exC2Sql ∧
      containsSeq exC2Sql (runTrace [] (fun _ s => s) 10 "sql_validator"
        { mkInitialState (chars "show me employees") with generated_sql := some exC2Sql }).2.response = true ∧
      (runTrace [] (fun _ s => s) 10 "sql_validator"
        { mkInitialState (chars "show me employees") with generated_sql := some exC2Sql }).2.response ≠ [] ∧
      containsSeq msgSelectStar (routeFromValidatorReason (applyValidator
        { mkInitialState (chars "show me employees") with generated_sql := some exC2Sql })) = true) :=
  ⟨by decide,
   claim_C2 [] (fun _ s => s) _ exC2Sql msgSelectStar [] rfl (by decide) (by decide)
     (by decide) (by decide) rfl⟩

/-- Claim C8: when the executor reports a non-empty error on validated SQL,
routing goes to the fallback terminal (never the summarizer), and the
terminal response is non-empty and contains both the error text and the
generated SQL. -/
theorem claim_C8 (clarify : List Char) (ext : String → WorkflowState → WorkflowState)
    (st : WorkflowState) (sql e : List Char)
    (hsql : st.generated_sql = some sql)
    (hvalid : (validateSql sql).valid = true)
    (herr : st.error_message = some e)
    (hene : e ≠ []) :
    routeFromExecutor st = "fallback" ∧
    routeFromExecutor st ≠ "result_summarizer" ∧
    (runTrace clarify ext 10 (routeFromExecutor st) st).1 = ["fallback"] ∧
    (runTrace clarify ext 10 (routeFromExecutor st) st).2.response = errResponse e sql ∧
    containsSeq e (runTrace clarify ext 10 (routeFromExecutor st) st).2.response = true ∧
    containsSeq sql (runTrace clarify ext 10 (routeFromExecutor st) st).2.response = true ∧
    (runTrace clarify ext 10 (routeFromExecutor st) st).2.response ≠ [] ∧
    (runTrace clarify ext 10 (routeFromExecutor st) st).2.current_node = "fallback" ∧
    graphNext "fallback" (runTrace clarify ext 10 (routeFromExecutor st) st).2 = "END" := by
  obtain ⟨hne, hnm⟩ := validateSql_valid_then_wellformed sql hvalid
  have hemp : sql.isEmpty = false := by
    cases sql with
    | nil => exact absurd rfl hne
    | cons a l => rfl
  have heemp : e.isEmpty = false := by
    cases e with
    | nil => exact absurd rfl hene
    | cons a l => rfl
  have hroute : routeFromExecutor st = "fallback" := by
    simp [routeFromExecutor, optTruthy, herr, heemp]
  rw [hroute]
  have hrun : runTrace clarify ext 10 "fallback" st = (["fallback"], applyFallback clarify st) := by
    simp [runTrace, stepNode, graphNext]
  have hresp : (applyFallback clarify st).response = errResponse e sql := by
    simp [applyFallback, fallbackResponse, hsql, herr, hemp, hnm, heemp]
  rw [hrun]
  refine ⟨rfl, by decide, rfl, hresp, ?_, ?_, ?_, rfl, rfl⟩
  · rw [hresp]
    unfold errResponse
    simp only [List.append_assoc]
    exact containsSeq_append_right _ (containsSeq_of_isPrefixOf (isPrefixOf_append_self e _))
  · rw [hresp]
    unfold errResponse
    simp only [List.append_assoc]
    exact containsSeq_append_right _ (containsSeq_append_right _
      (containsSeq_append_right _ (containsSeq_of_isPrefixOf (isPrefixOf_append_self sql _))))
  · rw [hresp]
    unfold errResponse
    intro hcontra
    have := congrArg List.length hcontra
    simp [List.length_append] at this
    exact absurd this.1 (by decide)

/-- Witness for claim C8 at a concrete execution-error state. -/
theorem claim_C8_witness :
    (validateSql exC8Sql).valid = true ∧ exC8Err ≠ [] ∧
    (routeFromExecutor { mkInitialState (chars "show id") with
        generated_sql := some exC8Sql, error_message := some exC8Err } = "fallback" ∧
      routeFromExecutor { mkInitialState (chars "show id") with
        generated_sql := some exC8Sql, error_message := some exC8Err } ≠ "result_summarizer" ∧
      (runTrace [] (fun _ s => s) 10 (routeFromExecutor { mkInitialState (chars "show id") with
        generated_sql := some exC8Sql, error_message := some exC8Err }) { mkInitialState (chars "show id") with
        generated_sql := some exC8Sql, error_message := some exC8Err }).1 = ["fallback"] ∧
      (runTrace [] (fun _ s => s) 10 (routeFromExecutor { mkInitialState (chars "show id") with
        generated_sql := some exC8Sql, error_message := some exC8Err }) { mkInitialState (chars "show id") with
        generated_sql := some exC8Sql, error_message := some exC8Err }).2.response = errResponse exC8Err exC8Sql ∧
      containsSeq exC8Err (runTrace [] (fun _ s => s) 10 (routeFromExecutor { mkInitialState (chars "show id") with
        generated_sql := some exC8Sql, error_message := some exC8Err }) { mkInitialState (chars "show id") with
        generated_sql := some exC8Sql, error_message := some exC8Err }).2.response = true ∧
      containsSeq exC8Sql (runTrace [] (fun _ s => s) 10 (routeFromExecutor { mkInitialState (chars "show id") with
        generated_sql := some exC8Sql, error_message := some exC8Err }) { mkInitialState (chars "show id") with
        generated_sql := some exC8Sql, error_message := some exC8Err }).2.response = true ∧
      (runTrace [] (fun _ s => s) 10 (routeFromExecutor { mkInitialState (chars "show id") with
        generated_sql := some exC8Sql, error_message := some exC8Err }) { mkInitialState (chars "show id") with
        generated_sql := some exC8Sql, error_message := some exC8Err }).2.response ≠ [] ∧
      (runTrace [] (fun _ s => s) 10 (routeFromExecutor { mkInitialState (chars "show id") with
        generated_sql := some exC8Sql, error_message := some exC8Err }) { mkInitialState (chars "show id") with
        generated_sql := some exC8Sql, error_message := some exC8Err }).2.current_node = "fallback" ∧
      graphNext "fallback" (runTrace [] (fun _ s => s) 10 (routeFromExecutor { mkInitialState (chars "show id") with
        generated_sql := some exC8Sql, error_message := some exC8Err }) { mkInitialState (chars "show id") with
        generated_sql := some exC8Sql, error_message := some exC8Err }).2 = "END") :=
  ⟨by decide, by decide,
   claim_C8 [] (fun _ s => s) _ exC8Sql exC8Err rfl (by decide) rfl (by decide)⟩

theorem takeWhile_append_of_all {p : Char → Bool} {x : List Char}
    (h : ∀ c ∈ x, p c = true) (y : List Char) :
    (x ++ y).takeWhile p = x ++ y.takeWhile p := by
  induction x with
  | nil => simp
  | cons a l ih =>
    have ha := h a (by simp)
    simp [List.takeWhile_cons, ha, ih (fun c hc => h c (by simp [hc]))]

theorem nestedAggSubAux_nil (fuel : Nat) : nestedAggSubAux fuel [] = [] := by
  cases fuel <;> rfl

theorem nestedAggSubAux_step (fuel : Nat) (c : Char) (rest : List Char)
    (len : Nat) (cap : List Char)
    (hm : matchNestedAggAt (c :: rest) = some (len, cap)) :
    nestedAggSubAux (fuel + 1) (c :: rest) =
      chars "AVG(" ++ cap ++ [')'] ++ nestedAggSubAux fuel ((c :: rest).drop len) := by
  simp [nestedAggSubAux, hm]

theorem findFirstAux_none_of (m : Option Char → List Char → Option α)
    (p : Option Char) (i : Nat) (s : List Char)
    (h : ∀ prev t, t <:+ s → m prev t = none) :
    findFirstAux m p i s = none := by
  induction s generalizing p i with
  | nil => simp [findFirstAux, h p [] List.nil_suffix]
  | cons c rest ih =>
    simp only [findFirstAux, h p (c :: rest) (List.suffix_refl _)]
    exact ih (some c) (i + 1) (fun prev t ht => h prev t (ht.trans (List.suffix_cons c rest)))

theorem matchOpen_none (t : List Char) (h : t.count '(' ≤ 1) :
    matchNestedAggOpenAt t = none := by
  unfold matchNestedAggOpenAt
  split
  · split
    · next r2 heq =>
      have hsub : (('(' : Char) :: r2).Sublist t := by
        rw [← heq]
        exact (List.dropWhile_sublist _).trans (List.drop_sublist 3 t)
      have hr2 : r2.count '(' = 0 := by
        have hc := hsub.count_le '('
        simp [List.count_cons] at hc
        omega
      dsimp only
      split
      · split
        · next r5 heq2 =>
          exfalso
          have hsub2 : (('(' : Char) :: r5).Sublist r2 := by
            rw [← heq2]
            exact (List.dropWhile_sublist _).trans
              ((List.drop_sublist 3 _).trans (List.dropWhile_sublist _))
          have hc2 := hsub2.count_le '('
          simp [List.count_cons, hr2] at hc2
        · rfl
      · rfl
    · rfl
  · rfl

/-- Claim C5, amended: every occurrence of AVG(SUM(x)) whose inner
expression x is parenthesis-free is rewritten to AVG(x), and such an output
contains no nested-aggregate pattern; when x itself contains an aggregate
call the residual pattern can survive (see the counterexample). -/
theorem claim_C5 (x : List Char) (hne : x ≠ [])
    (hpar : ∀ c ∈ x, c ≠ '(' ∧ c ≠ ')') :
    fixNestedAgg (chars "AVG(SUM(" ++ x ++ chars "))") = chars "AVG(" ++ x ++ [')'] ∧
    nestedAggSearch (chars "AVG(" ++ x ++ [')']) = false := by
  constructor
  · have hxe : x.isEmpty = false := by
      cases x with
      | nil => exact absurd rfl hne
      | cons a l => rfl
    have hshape : chars "AVG(SUM(" ++ x ++ chars "))" =
        'A' :: 'V' :: 'G' :: '(' :: 'S' :: 'U' :: 'M' :: '(' :: (x ++ [')', ')']) := by
      rw [List.append_assoc]; rfl
    have hcap : (x ++ [')', ')']).takeWhile (fun c => !decide (c = ')')) = x := by
      rw [takeWhile_append_of_all (fun c hc => by simp [(hpar c hc).2])]
      simp
    have hmatch : matchNestedAggAt ('A' :: 'V' :: 'G' :: '(' :: 'S' :: 'U' :: 'M' :: '(' :: (x ++ [')', ')'])) =
        some (('A' :: 'V' :: 'G' :: '(' :: 'S' :: 'U' :: 'M' :: '(' :: (x ++ [')', ')'])).length, x) := by
      simp [matchNestedAggAt, iPrefixOf, isSpaceChar, hcap, hxe, List.drop_left]
    have hopen : matchNestedAggOpenAt ('A' :: 'V' :: 'G' :: '(' :: 'S' :: 'U' :: 'M' :: '(' :: (x ++ [')', ')'])) =
        some () := by
      simp [matchNestedAggOpenAt, iPrefixOf, isSpaceChar]
    have hsearch : nestedAggSearch ('A' :: 'V' :: 'G' :: '(' :: 'S' :: 'U' :: 'M' :: '(' :: (x ++ [')', ')'])) = true := by
      simp [nestedAggSearch, findFirst, findFirstAux, hopen]
    have hlen : ('A' :: 'V' :: 'G' :: '(' :: 'S' :: 'U' :: 'M' :: '(' :: (x ++ [')', ')'])).length
        = x.length + 10 := by
      simp [List.length_append]
    rw [hshape]
    unfold fixNestedAgg
    rw [if_pos hsearch]
    rw [hlen] at hmatch ⊢
    show nestedAggSubAux (x.length + 9 + 1)
      ('A' :: 'V' :: 'G' :: '(' :: 'S' :: 'U' :: 'M' :: '(' :: (x ++ [')', ')'])) = chars "AVG(" ++ x ++ [')']
    rw [nestedAggSubAux_step (x.length + 9) 'A' _ _ _ hmatch]
    have hdrop : ('A' :: 'V' :: 'G' :: '(' :: 'S' :: 'U' :: 'M' :: '(' :: (x ++ [')', ')'])).drop (x.length + 10) = [] := by
      apply List.drop_eq_nil_of_le
      rw [hlen]
    rw [hdrop, nestedAggSubAux_nil, List.append_nil]
  · have hshape2 : chars "AVG(" ++ x ++ [')'] = 'A' :: 'V' :: 'G' :: '(' :: (x ++ [')']) := by
      rw [List.append_assoc]; rfl
    have hx0 : x.count '(' = 0 :=
      List.count_eq_zero.mpr (fun hmem => (hpar _ hmem).1 rfl)
    have hcount : ('A' :: 'V' :: 'G' :: '(' :: (x ++ [')'])).count '(' ≤ 1 := by
      simp [List.count_cons, List.count_append, hx0]
    rw [hshape2]
    unfold nestedAggSearch findFirst
    rw [findFirstAux_none_of _ _ _ _
      (fun prev t ht => matchOpen_none t (le_trans (ht.sublist.count_le '(') hcount))]
    rfl

/-- Witness for claim C5 at the inner expression "net_result". -/
theorem claim_C5_witness :
    chars "net_result" ≠ [] ∧
    (∀ c ∈ chars "net_result", c ≠ '(' ∧ c ≠ ')') ∧
    (fixNestedAgg (chars "AVG(SUM(" ++ chars "net_result" ++ chars "))")
        = chars "AVG(" ++ chars "net_result" ++ [')'] ∧
      nestedAggSearch (chars "AVG(" ++ chars "net_result" ++ [')']) = false) :=
  ⟨by decide, by decide, claim_C5 (chars "net_result") (by decide) (by decide)⟩
